import Mathlib

/-!
Verification development for the FlightsSQL repository (src/data.py and
src/main.py): a shallow embedding of the data-access layer, the query
catalog and the display layer, with theorems settling the specified
properties of each component.
-/

namespace FlightsSQL

/-- Dynamic values as they appear in SQLite result rows and Python
parameter dictionaries: integers, strings, and NULL (None). -/
inductive Value where
  | int  : Int → Value
  | str  : String → Value
  | null : Value
deriving DecidableEq, Repr

/-- A result record: the mapping from column name to value that
FlightData._execute_query materializes from each row via row._asdict().
Represented as the ordered list of projected (column, value) pairs;
lookup follows Python dict semantics, where a later duplicate column
label overwrites an earlier one. -/
abbrev Record := List (String × Value)

/-- Dictionary lookup on a record: the LAST binding of a key wins,
mirroring how building a Python dict from (key, value) pairs keeps the
value of the last duplicate key. -/
def recordGet (r : Record) (k : String) : Option Value :=
  (r.reverse.find? (fun p => p.1 == k)).map (fun p => p.2)

/-- Does any column of the record hold the given string value? -/
def recordHasStrValue (r : Record) (s : String) : Bool :=
  r.any (fun p => p.2 == Value.str s)

/-- A row of the flights relation, restricted to the columns this system
reads (the real table has further columns; none is ever referenced by
the queries projections used downstream or by the display layer beyond
these). AIRLINE is the numeric foreign key into the airlines relation;
DEPARTURE_DELAY is nullable. -/
structure FlightRow where
  id : Int
  year : Int
  month : Int
  day : Int
  airline : Int
  origin_airport : String
  destination_airport : String
  departure_delay : Option Int
deriving DecidableEq, Repr

/-- A row of the airlines relation: identifier and human-readable name. -/
structure AirlineRow where
  id : Int
  airline : String
deriving DecidableEq, Repr

/-- The backing database: the two relations the schema expects. -/
structure DB where
  flights : List FlightRow
  airlines : List AirlineRow
deriving DecidableEq, Repr

/-- A nullable delay column value as it appears in a record. -/
def valOfDelay : Option Int → Value
  | none => Value.null
  | some n => Value.int n

/-- The columns contributed by the projection flights.* , in schema
order, with column labels uppercased per the source schema convention. -/
def flightsStar (f : FlightRow) : Record :=
  [("ID", Value.int f.id), ("YEAR", Value.int f.year), ("MONTH", Value.int f.month),
   ("DAY", Value.int f.day), ("AIRLINE", Value.int f.airline),
   ("ORIGIN_AIRPORT", Value.str f.origin_airport),
   ("DESTINATION_AIRPORT", Value.str f.destination_airport),
   ("DEPARTURE_DELAY", valOfDelay f.departure_delay)]

/-- The columns contributed by the projection airlines.* , in schema
order. -/
def airlinesStar (a : AirlineRow) : Record :=
  [("ID", Value.int a.id), ("AIRLINE", Value.str a.airline)]

/-- Record projected by QUERY_FLIGHT_BY_ID for a joined (flight, airline)
pair: flights.*, airlines.airline (overwriting the numeric AIRLINE key
with the resolved name under dict semantics), flights.ID as FLIGHT_ID,
flights.DEPARTURE_DELAY as DELAY. -/
def recById (f : FlightRow) (a : AirlineRow) : Record :=
  flightsStar f ++
  [("AIRLINE", Value.str a.airline),
   ("FLIGHT_ID", Value.int f.id),
   ("DELAY", valOfDelay f.departure_delay)]

/-- Record projected by QUERY_FLIGHT_BY_DATE for a flight: flights.*,
flights.ID as FLIGHT_ID, flights.ORIGIN_AIRPORT,
flights.DESTINATION_AIRPORT, flights.DEPARTURE_DELAY as DELAY. No join
with airlines, so no resolved airline name is projected. -/
def recByDate (f : FlightRow) : Record :=
  flightsStar f ++
  [("FLIGHT_ID", Value.int f.id),
   ("ORIGIN_AIRPORT", Value.str f.origin_airport),
   ("DESTINATION_AIRPORT", Value.str f.destination_airport),
   ("DELAY", valOfDelay f.departure_delay)]

/-- Record projected by QUERY_FLIGHT_BY_AIRPORT for a joined
(flight, airline) pair. -/
def recByAirport (f : FlightRow) (a : AirlineRow) : Record :=
  flightsStar f ++
  [("FLIGHT_ID", Value.int f.id),
   ("ORIGIN_AIRPORT", Value.str f.origin_airport),
   ("DESTINATION_AIRPORT", Value.str f.destination_airport),
   ("AIRLINE", Value.str a.airline),
   ("DELAY", valOfDelay f.departure_delay)]

/-- Record projected by QUERY_FLIGHT_BY_AIRLINE for a joined
(airline, flight) pair: airlines.*, airlines.ID as AIRLINE_ID,
flights.ORIGIN_AIRPORT, flights.DESTINATION_AIRPORT, airlines.AIRLINE,
flights.DEPARTURE_DELAY as DELAY. -/
def recByAirline (a : AirlineRow) (f : FlightRow) : Record :=
  airlinesStar a ++
  [("AIRLINE_ID", Value.int a.id),
   ("ORIGIN_AIRPORT", Value.str f.origin_airport),
   ("DESTINATION_AIRPORT", Value.str f.destination_airport),
   ("AIRLINE", Value.str a.airline),
   ("DELAY", valOfDelay f.departure_delay)]

/-- Verbatim text of QUERY_FLIGHT_BY_ID from src/data.py (the Python
line continuations contribute the runs of spaces). -/
def QUERY_FLIGHT_BY_ID : String :=
  "SELECT flights.*, airlines.airline, flights.ID as FLIGHT_ID,     flights.DEPARTURE_DELAY as DELAY FROM flights         JOIN airlines ON flights.airline = airlines.id             WHERE flights.ID = :id"

/-- Verbatim text of QUERY_FLIGHT_BY_DATE from src/data.py. -/
def QUERY_FLIGHT_BY_DATE : String :=
  "SELECT flights.*, flights.ID as FLIGHT_ID,     flights.ORIGIN_AIRPORT, flights.DESTINATION_AIRPORT, flights.DEPARTURE_DELAY as DELAY         FROM flights WHERE flights.DAY = :day             AND flights.MONTH = :month AND flights.YEAR = :year"

/-- Verbatim text of QUERY_FLIGHT_BY_AIRPORT from src/data.py. -/
def QUERY_FLIGHT_BY_AIRPORT : String :=
  "SELECT flights.*, flights.ID as FLIGHT_ID,     flights.ORIGIN_AIRPORT, flights.DESTINATION_AIRPORT, airlines.AIRLINE, flights.DEPARTURE_DELAY as DELAY         FROM flights JOIN airlines ON flights.AIRLINE = airlines.ID             WHERE flights.ORIGIN_AIRPORT = :origin_airport"

/-- Verbatim text of QUERY_FLIGHT_BY_AIRLINE from src/data.py. -/
def QUERY_FLIGHT_BY_AIRLINE : String :=
  "SELECT airlines.*, airlines.ID as AIRLINE_ID,     flights.ORIGIN_AIRPORT, flights.DESTINATION_AIRPORT, airlines.AIRLINE, flights.DEPARTURE_DELAY as DELAY         FROM flights JOIN airlines ON  airlines.ID = flights.AIRLINE             WHERE airlines.AIRLINE = :airline"

/-- Names for the four templates of the query catalog. -/
inductive QueryId where
  | byId
  | byDate
  | byAirport
  | byAirline
deriving DecidableEq, Repr

/-- The SQL text each catalog name stands for. -/
def queryText : QueryId → String
  | .byId => QUERY_FLIGHT_BY_ID
  | .byDate => QUERY_FLIGHT_BY_DATE
  | .byAirport => QUERY_FLIGHT_BY_AIRPORT
  | .byAirline => QUERY_FLIGHT_BY_AIRLINE

/-- A Python parameter dictionary as passed to conn.execute. -/
abbrev Params := List (String × Value)

/-- Lookup of a named bind parameter in the parameter dictionary. -/
def lookupParam (p : Params) (k : String) : Option Value :=
  List.lookup k p

/-- Store-level exceptions as SQLAlchemy raises them: a missing named
bind parameter raises a StatementError before execution. -/
inductive StoreError where
  | bindError
deriving DecidableEq, Repr

/-- Rows matched by QUERY_FLIGHT_BY_ID: FROM flights JOIN airlines ON
flights.airline = airlines.id WHERE flights.ID = :id, nested-loop order
with flights outer. SQLite equality between a column and a bind value is
typed: an integer column never equals a string parameter. -/
def rowsById (db : DB) (v : Value) : List Record :=
  db.flights.flatMap (fun f =>
    db.airlines.filterMap (fun a =>
      if f.airline = a.id ∧ Value.int f.id = v then some (recById f a) else none))

/-- Rows matched by QUERY_FLIGHT_BY_DATE: FROM flights WHERE flights.DAY
= :day AND flights.MONTH = :month AND flights.YEAR = :year. -/
def rowsByDate (db : DB) (dv mv yv : Value) : List Record :=
  db.flights.filterMap (fun f =>
    if Value.int f.day = dv ∧ Value.int f.month = mv ∧ Value.int f.year = yv
    then some (recByDate f) else none)

/-- Rows matched by QUERY_FLIGHT_BY_AIRPORT: FROM flights JOIN airlines
ON flights.AIRLINE = airlines.ID WHERE flights.ORIGIN_AIRPORT =
:origin_airport. -/
def rowsByAirport (db : DB) (v : Value) : List Record :=
  db.flights.flatMap (fun f =>
    db.airlines.filterMap (fun a =>
      if f.airline = a.id ∧ Value.str f.origin_airport = v
      then some (recByAirport f a) else none))

/-- Rows matched by QUERY_FLIGHT_BY_AIRLINE: FROM flights JOIN airlines
ON airlines.ID = flights.AIRLINE WHERE airlines.AIRLINE = :airline. -/
def rowsByAirline (db : DB) (v : Value) : List Record :=
  db.flights.flatMap (fun f =>
    db.airlines.filterMap (fun a =>
      if a.id = f.airline ∧ Value.str a.airline = v
      then some (recByAirline a f) else none))

/-- Semantics of executing one catalog query against the database with a
parameter dictionary: every named parameter of the template must be
bound (otherwise the store raises), then the matching rows are
materialized in store order. -/
def evalQuery (db : DB) (q : QueryId) (params : Params) :
    Except StoreError (List Record) :=
  match q with
  | .byId =>
    match lookupParam params "id" with
    | none => .error .bindError
    | some v => .ok (rowsById db v)
  | .byDate =>
    match lookupParam params "day", lookupParam params "month",
          lookupParam params "year" with
    | some dv, some mv, some yv => .ok (rowsByDate db dv mv yv)
    | _, _, _ => .error .bindError
  | .byAirport =>
    match lookupParam params "origin_airport" with
    | none => .error .bindError
    | some v => .ok (rowsByAirport db v)
  | .byAirline =>
    match lookupParam params "airline" with
    | none => .error .bindError
    | some v => .ok (rowsByAirline db v)

/-- Abstract behavior of the backing store as seen through
conn.execute: given a catalog query and parameters, it either returns
the materialized rows or raises a store-level exception. -/
def Store := QueryId → Params → Except StoreError (List Record)

/-- The store backed by a concrete relational database state. -/
def sqlStore (db : DB) : Store := fun q p => evalQuery db q p

/-- Connection lifecycle events observable during one gateway call. -/
inductive ConnEvent where
  | acquire
  | release
deriving DecidableEq, Repr

/-- Semantics of the Python with-statement over engine.connect(): the
connection is acquired, the body runs, and the context-manager exit
releases the connection on BOTH exit paths, the normal return and the
propagation of an exception raised by the body. -/
def withConnect {α : Type} (body : Unit → Except StoreError α) :
    Except StoreError α × List ConnEvent :=
  match body () with
  | .ok a => (.ok a, [ConnEvent.acquire, ConnEvent.release])
  | .error e => (.error e, [ConnEvent.acquire, ConnEvent.release])

/-- FlightData._execute_query from src/data.py: opens a connection with
a with-statement, executes the query with the bound parameters and
materializes each row as a dict. The body contains NO try/except, so a
store-level exception propagates to the caller (the docstring claims it
would be printed and an empty list returned, but no handler exists in
the code). The second component is the connection-event trace of the
call. -/
def FlightData.execute_query (store : Store) (query : QueryId) (params : Params) :
    Except StoreError (List Record) × List ConnEvent :=
  withConnect (fun _ => store query params)

/-- FlightData.get_delayed_flights_by_airline: binds
params = dict of airline to the argument and runs
QUERY_FLIGHT_BY_AIRLINE. -/
def FlightData.get_delayed_flights_by_airline (store : Store) (origin_airport : Value) :
    Except StoreError (List Record) × List ConnEvent :=
  FlightData.execute_query store QueryId.byAirline [("airline", origin_airport)]

/-- FlightData.get_delayed_flights_by_airport: binds
params = dict of origin_airport to the argument and runs
QUERY_FLIGHT_BY_AIRPORT. -/
def FlightData.get_delayed_flights_by_airport (store : Store) (origin_airport : Value) :
    Except StoreError (List Record) × List ConnEvent :=
  FlightData.execute_query store QueryId.byAirport [("origin_airport", origin_airport)]

/-- FlightData.get_flight_by_id: binds params = dict of id to the
argument and runs QUERY_FLIGHT_BY_ID. -/
def FlightData.get_flight_by_id (store : Store) (flight_id : Value) :
    Except StoreError (List Record) × List ConnEvent :=
  FlightData.execute_query store QueryId.byId [("id", flight_id)]

/-- FlightData.get_flights_by_date: binds params = dict of day, month,
year to the arguments and runs QUERY_FLIGHT_BY_DATE. -/
def FlightData.get_flights_by_date (store : Store) (day month year : Value) :
    Except StoreError (List Record) × List ConnEvent :=
  FlightData.execute_query store QueryId.byDate
    [("day", day), ("month", month), ("year", year)]

/-- IATA_LENGTH from src/main.py. -/
def IATA_LENGTH : Nat := 3

/-- Python str.isalpha(): true iff the string is non-empty and every
character is alphabetic. -/
def pyIsalpha (s : String) : Bool :=
  !s.isEmpty && s.toList.all Char.isAlpha

/-- The input-validation loop of delayed_flights_by_airport in
src/main.py, driven by the (finite prefix of the) stream of strings the
user types: each input is tested with
airport_input.isalpha() and len(airport_input) == IATA_LENGTH; invalid
inputs make the loop re-prompt, and the first valid input is the one
the loop exits with. none means the user has not yet supplied a valid
input (the loop is still prompting). -/
def airport_input_loop : List String → Option String
  | [] => none
  | s :: rest =>
    if pyIsalpha s && s.length == IATA_LENGTH then some s
    else airport_input_loop rest

/-- delayed_flights_by_airport from src/main.py: runs the validation
loop and, only once it has produced a valid code, invokes the Gateway
method get_delayed_flights_by_airport with exactly that string. -/
def delayed_flights_by_airport (store : Store) (inputs : List String) :
    Option (Except StoreError (List Record) × List ConnEvent) :=
  (airport_input_loop inputs).map
    (fun s => FlightData.get_delayed_flights_by_airport store (Value.str s))

/-- Python exceptions relevant to print_results: KeyError from a missing
dict key, ValueError from int() on a malformed string, TypeError from
int(None), and the SQLAlchemyError family named in the except clause. -/
inductive PyExc where
  | keyError : String → PyExc
  | valueError
  | typeError
  | sqlalchemyError
deriving DecidableEq, Repr

/-- The exceptions the except clause of print_results catches:
(ValueError, sqlalchemy.exc.SQLAlchemyError). KeyError is NOT among
them. -/
def caughtByPrintResults : PyExc → Bool
  | .valueError => true
  | .sqlalchemyError => true
  | _ => false

/-- Python truthiness of a record value: 0, the empty string and None
are falsy, everything else is truthy. -/
def pyTruthy : Value → Bool
  | .int i => i != 0
  | .str s => s != ""
  | .null => false

/-- Python int() applied to a record value: an int is returned as is, a
string is parsed (ValueError when malformed), None raises TypeError. -/
def pyInt : Value → Except PyExc Int
  | .int i => .ok i
  | .str s =>
    match s.toInt? with
    | some i => .ok i
    | none => .error .valueError
  | .null => .error .typeError

/-- Python str() of a record value, as an f-string renders it. -/
def pyStr : Value → String
  | .int i => toString i
  | .str s => s
  | .null => "None"

/-- Short rendering of an exception for the error message print. -/
def pyExcMsg : PyExc → String
  | .keyError k => k
  | .valueError => "ValueError"
  | .typeError => "TypeError"
  | .sqlalchemyError => "SQLAlchemyError"

/-- Dict access result[k]: KeyError when the key is absent. -/
def dictAccess (r : Record) (k : String) : Except PyExc Value :=
  match recordGet r k with
  | none => .error (.keyError k)
  | some v => .ok v

/-- The try block of print_results for one record: reads DELAY (with
the NULL-to-0 normalization delay = int(result[DELAY]) if
result[DELAY] else 0), then ORIGIN_AIRPORT, DESTINATION_AIRPORT and
AIRLINE. Any of these accesses can raise; which exceptions the
enclosing except clause actually catches is decided by the caller. -/
def printResultsTryBlock (r : Record) :
    Except PyExc (Int × Value × Value × Value) := do
  let dv ← dictAccess r "DELAY"
  let delay ← if pyTruthy dv then pyInt dv else pure 0
  let origin ← dictAccess r "ORIGIN_AIRPORT"
  let dest ← dictAccess r "DESTINATION_AIRPORT"
  let airline ← dictAccess r "AIRLINE"
  pure (delay, origin, dest, airline)

/-- The for-loop body of print_results over the remaining records.
Returns the lines printed by the loop and, when an exception escapes
(one not named in the except clause, e.g. KeyError), that exception.
A caught exception prints the error line and RETURNS from
print_results, abandoning the rest of the batch without raising. The
per-row line reads result[ID] outside the try block. -/
def printResultsLoop : List Record → List String × Option PyExc
  | [] => ([], none)
  | r :: rest =>
    match printResultsTryBlock r with
    | .error e =>
      if caughtByPrintResults e then
        let msg := pyExcMsg e
        ([s!"Error showing results:  {msg}"], none)
      else
        ([], some e)
    | .ok (delay, origin, dest, airline) =>
      match dictAccess r "ID" with
      | .error e => ([], some e)
      | .ok idv =>
        let i := pyStr idv
        let o := pyStr origin
        let d := pyStr dest
        let al := pyStr airline
        let line :=
          if delay ≠ 0 ∧ delay > 0 then
            s!"{i}. {o} -> {d} by {al}, Delay: {delay} Minutes"
          else
            s!"{i}. {o} -> {d} by {al}"
        let (ls, exc) := printResultsLoop rest
        (line :: ls, exc)

/-- print_results from src/main.py: prints the result count header and
then one line per record, with the error behavior of the loop above.
The first component is every line printed before the call ended; the
second is the exception propagated to the caller, if any. -/
def print_results (results : List Record) : List String × Option PyExc :=
  let n := results.length
  let (ls, exc) := printResultsLoop results
  (s!"Got {n} results." :: ls, exc)

/-- Whether pat occurs at the start of the character list s. -/
def startsWithChars : List Char → List Char → Bool
  | _, [] => true
  | [], _ :: _ => false
  | c :: cs, p :: ps => c == p && startsWithChars cs ps

/-- Whether pat occurs as a contiguous substring of the character list
s. -/
def containsChars : List Char → List Char → Bool
  | [], pat => pat.isEmpty
  | c :: cs, pat => startsWithChars (c :: cs) pat || containsChars cs pat

/-- A single read-only SELECT statement: begins with the SELECT keyword,
holds one statement only (no semicolon), and contains no data- or
schema-modifying keyword. -/
def isReadOnlySelect (s : String) : Bool :=
  let cs := s.toList
  startsWithChars cs ("SELECT".toList) &&
  !(cs.contains ';') &&
  (["INSERT", "UPDATE", "DELETE", "DROP", "CREATE", "ALTER"].all
    (fun kw => !(containsChars cs kw.toList)))

/-- One statement issued against the store, viewed as a transition on
the database state paired with the produced result: executing a catalog
query reads the relations and leaves the database unchanged, since a
SELECT has no write effect. -/
def runStatement (db : DB) (q : QueryId) (p : Params) :
    DB × Except StoreError (List Record) :=
  (db, evalQuery db q p)

/-- The record r resolves an airline name of the database: its AIRLINE
column holds the name of one of the airline rows. -/
def hasResolvedAirlineName (db : DB) (r : Record) : Prop :=
  ∃ a, a ∈ db.airlines ∧ recordGet r "AIRLINE" = some (Value.str a.airline)

/-- The record carries the display columns: a row identifier under the
given key, an origin airport, a destination airport and a delay value. -/
def hasCoreColumns (r : Record) (idKey : String) : Prop :=
  (recordGet r idKey).isSome = true ∧
  (recordGet r "ORIGIN_AIRPORT").isSome = true ∧
  (recordGet r "DESTINATION_AIRPORT").isSome = true ∧
  (recordGet r "DELAY").isSome = true

/-- Concrete fixture: a flight row operated by airline 5, from SEA to
JFK on 14/01/2015 with a 10 minute departure delay. -/
def flightSEA : FlightRow :=
  { id := 119, year := 2015, month := 1, day := 14, airline := 5,
    origin_airport := "SEA", destination_airport := "JFK",
    departure_delay := some 10 }

/-- Concrete fixture: a flight row with a NULL departure delay. -/
def flightNullDelay : FlightRow :=
  { id := 120, year := 2015, month := 1, day := 14, airline := 5,
    origin_airport := "SEA", destination_airport := "LAX",
    departure_delay := none }

/-- Concrete fixture: the airline row named Delta with identifier 5. -/
def airlineDelta : AirlineRow := { id := 5, airline := "Delta" }

/-- Concrete fixture database with one flight and one airline. -/
def dbOne : DB := { flights := [flightSEA], airlines := [airlineDelta] }

/-- Concrete fixture database whose only flight has a NULL delay. -/
def dbTwo : DB := { flights := [flightNullDelay], airlines := [airlineDelta] }

/-- The AIRLINE column of the record holds the numeric airline
identifier of one of the flight rows (the un-resolved foreign key). -/
def airlineColumnIsFlightFk (db : DB) (r : Record) : Prop :=
  ∃ f, f ∈ db.flights ∧ recordGet r "AIRLINE" = some (Value.int f.airline)

/-- C1 (evidence of the divergence): executing QUERY_FLIGHT_BY_ID with
an empty parameter dictionary makes the store raise a bind error, and
_execute_query propagates that exception to its caller instead of
reporting it and returning an empty list, because the function body
contains no exception handler although its own docstring promises one. -/
theorem c1_store_exception_propagates :
    (FlightData.execute_query (sqlStore dbOne) QueryId.byId []).1
      = Except.error StoreError.bindError ∧
    (FlightData.execute_query (sqlStore dbOne) QueryId.byId []).1
      ≠ Except.ok ([] : List Record) := by
  constructor
  · rfl
  · rw [show (FlightData.execute_query (sqlStore dbOne) QueryId.byId []).1
        = Except.error StoreError.bindError from rfl]
    exact fun h => Except.noConfusion h

/-- C2 (evidence of the divergence): print_results on a batch whose
record is missing the DELAY column raises KeyError to its caller, since
dict access raises KeyError and the except clause names only ValueError
and SQLAlchemyError; the claimed reported-and-abandoned recovery does
not happen. -/
theorem c2_missing_field_raises_keyerror :
    print_results [[("ID", Value.int 1)]] =
      (["Got 1 results."], some (PyExc.keyError "DELAY")) := by
  decide

/-- C7: each of the four convenience operations equals _execute_query
applied to its corresponding catalog template with exactly the one
parameter dictionary binding its arguments, and performs nothing else. -/
theorem c7_thin_wrappers :
    ∀ (store : Store) (flight_id day month year airline origin_airport : Value),
      FlightData.get_flight_by_id store flight_id
        = FlightData.execute_query store QueryId.byId [("id", flight_id)] ∧
      FlightData.get_flights_by_date store day month year
        = FlightData.execute_query store QueryId.byDate
            [("day", day), ("month", month), ("year", year)] ∧
      FlightData.get_delayed_flights_by_airport store origin_airport
        = FlightData.execute_query store QueryId.byAirport
            [("origin_airport", origin_airport)] ∧
      FlightData.get_delayed_flights_by_airline store airline
        = FlightData.execute_query store QueryId.byAirline
            [("airline", airline)] :=
  fun _ _ _ _ _ _ _ => ⟨rfl, rfl, rfl, rfl⟩

/-- C10: every call of _execute_query acquires a connection at the start
and releases it at the end, on the normal path and on the path where the
store raises alike (the with-statement exit runs in both cases), and the
body result is whatever the store produced, so no connection outlives
the call. -/
theorem c10_connection_released_on_all_paths :
    ∀ (store : Store) (q : QueryId) (p : Params),
      (FlightData.execute_query store q p).2
        = [ConnEvent.acquire, ConnEvent.release] ∧
      (FlightData.execute_query store q p).1 = store q p := by
  intro store q p
  unfold FlightData.execute_query withConnect
  cases h : store q p <;> simp [h]

set_option maxRecDepth 40000 in
/-- C8: every statement the system issues belongs to the catalog of four
templates, each of which is a single read-only SELECT, and executing any
of them leaves the database state unchanged. -/
theorem c8_read_only_statements :
    (∀ q : QueryId, isReadOnlySelect (queryText q) = true) ∧
    (∀ (db : DB) (q : QueryId) (p : Params), (runStatement db q p).1 = db) := by
  constructor
  · intro q
    cases q <;> rfl
  · intro db q p
    rfl

/-- C6: the airport-code input loop hands a string to the Gateway only
when it consists of exactly 3 alphabetic characters, and any input
failing that test is re-prompted without the Gateway ever seeing it. -/
theorem c6_airport_input_validation :
    (∀ (inputs : List String) (s : String),
        airport_input_loop inputs = some s →
        s.length = 3 ∧ s.toList.all Char.isAlpha = true) ∧
    (∀ (inputs : List String) (s : String),
        (pyIsalpha s && s.length == IATA_LENGTH) = false →
        airport_input_loop (s :: inputs) = airport_input_loop inputs) := by
  constructor
  · intro inputs
    induction inputs with
    | nil =>
      intro s h
      simp [airport_input_loop] at h
    | cons x xs ih =>
      intro s h
      by_cases hv : (pyIsalpha x && x.length == IATA_LENGTH) = true
      · rw [airport_input_loop, if_pos hv] at h
        cases h
        rw [Bool.and_eq_true] at hv
        obtain ⟨ha, hl⟩ := hv
        rw [pyIsalpha, Bool.and_eq_true] at ha
        refine ⟨by simpa [IATA_LENGTH] using hl, ha.2⟩
      · rw [airport_input_loop, if_neg hv] at h
        exact ih s h
  · intro inputs s hv
    rw [airport_input_loop, if_neg (by simp [hv])]

/-- C6 witness: the 2-letter input SE is skipped by the loop, and the
string the loop does produce, SEA, is exactly 3 alphabetic characters. -/
theorem c6_witness :
    airport_input_loop ["SE", "SEA"] = airport_input_loop ["SEA"] ∧
    ("SEA".length = 3 ∧ "SEA".toList.all Char.isAlpha = true) :=
  ⟨c6_airport_input_validation.2 ["SEA"] "SE" (by decide),
   c6_airport_input_validation.1 ["SEA"] "SEA" (by decide)⟩

/-- C5: when a catalog query executes successfully (all parameters
bound) but matches no row of the store, each gateway operation returns
the empty list as a normal value, for all four templates. -/
theorem c5_no_match_returns_empty :
    (∀ (db : DB) (idv : Int), (∀ f ∈ db.flights, f.id ≠ idv) →
      (FlightData.get_flight_by_id (sqlStore db) (Value.int idv)).1
        = Except.ok []) ∧
    (∀ (db : DB) (d m y : Int),
      (∀ f ∈ db.flights, ¬(f.day = d ∧ f.month = m ∧ f.year = y)) →
      (FlightData.get_flights_by_date (sqlStore db)
          (Value.int d) (Value.int m) (Value.int y)).1 = Except.ok []) ∧
    (∀ (db : DB) (ap : String), (∀ f ∈ db.flights, f.origin_airport ≠ ap) →
      (FlightData.get_delayed_flights_by_airport (sqlStore db)
          (Value.str ap)).1 = Except.ok []) ∧
    (∀ (db : DB) (al : String), (∀ a ∈ db.airlines, a.airline ≠ al) →
      (FlightData.get_delayed_flights_by_airline (sqlStore db)
          (Value.str al)).1 = Except.ok []) := by
  refine ⟨?_, ?_, ?_, ?_⟩
  · intro db idv h
    rw [show (FlightData.get_flight_by_id (sqlStore db) (Value.int idv)).1
        = Except.ok (rowsById db (Value.int idv)) from rfl]
    rw [show rowsById db (Value.int idv) = [] from ?_]
    simp only [rowsById, List.flatMap_eq_nil_iff, List.filterMap_eq_nil_iff]
    intro f hf a _
    rw [if_neg]
    rintro ⟨-, h2⟩
    exact h f hf (Value.int.injEq .. ▸ h2.symm ▸ rfl)
  · intro db d m y h
    rw [show (FlightData.get_flights_by_date (sqlStore db)
        (Value.int d) (Value.int m) (Value.int y)).1
        = Except.ok (rowsByDate db (Value.int d) (Value.int m) (Value.int y)) from rfl]
    rw [show rowsByDate db (Value.int d) (Value.int m) (Value.int y) = [] from ?_]
    simp only [rowsByDate, List.filterMap_eq_nil_iff]
    intro f hf
    rw [if_neg]
    rintro ⟨h1, h2, h3⟩
    exact h f hf ⟨Value.int.inj h1, Value.int.inj h2, Value.int.inj h3⟩
  · intro db ap h
    rw [show (FlightData.get_delayed_flights_by_airport (sqlStore db)
        (Value.str ap)).1 = Except.ok (rowsByAirport db (Value.str ap)) from rfl]
    rw [show rowsByAirport db (Value.str ap) = [] from ?_]
    simp only [rowsByAirport, List.flatMap_eq_nil_iff, List.filterMap_eq_nil_iff]
    intro f hf a _
    rw [if_neg]
    rintro ⟨-, h2⟩
    exact h f hf (Value.str.inj h2)
  · intro db al h
    rw [show (FlightData.get_delayed_flights_by_airline (sqlStore db)
        (Value.str al)).1 = Except.ok (rowsByAirline db (Value.str al)) from rfl]
    rw [show rowsByAirline db (Value.str al) = [] from ?_]
    simp only [rowsByAirline, List.flatMap_eq_nil_iff, List.filterMap_eq_nil_iff]
    intro f _ a ha
    rw [if_neg]
    rintro ⟨-, h2⟩
    exact h a ha (Value.str.inj h2)

/-- C5 witness: against the concrete one-flight database, each of the
four lookups for a value present in no row returns the empty list. -/
theorem c5_witness :
    (FlightData.get_flight_by_id (sqlStore dbOne) (Value.int 7)).1
      = Except.ok [] ∧
    (FlightData.get_flights_by_date (sqlStore dbOne)
        (Value.int 2) (Value.int 3) (Value.int 1999)).1 = Except.ok [] ∧
    (FlightData.get_delayed_flights_by_airport (sqlStore dbOne)
        (Value.str "LAX")).1 = Except.ok [] ∧
    (FlightData.get_delayed_flights_by_airline (sqlStore dbOne)
        (Value.str "United")).1 = Except.ok [] :=
  ⟨c5_no_match_returns_empty.1 dbOne 7 (by decide),
   c5_no_match_returns_empty.2.1 dbOne 2 3 1999 (by decide),
   c5_no_match_returns_empty.2.2.1 dbOne "LAX" (by decide),
   c5_no_match_returns_empty.2.2.2 dbOne "United" (by decide)⟩

/-- C9: despite their names, the airport and airline lookups filter only
on origin airport respectively airline name: every matching joined pair
contributes its record to the result no matter what its delay value is,
so flights with NULL or zero delay are returned too. -/
theorem c9_delay_not_filtered :
    (∀ (db : DB) (ap : String) (f : FlightRow) (a : AirlineRow),
        f ∈ db.flights → a ∈ db.airlines → f.airline = a.id →
        f.origin_airport = ap →
        (FlightData.get_delayed_flights_by_airport (sqlStore db)
            (Value.str ap)).1 = Except.ok (rowsByAirport db (Value.str ap)) ∧
        recByAirport f a ∈ rowsByAirport db (Value.str ap)) ∧
    (∀ (db : DB) (al : String) (f : FlightRow) (a : AirlineRow),
        f ∈ db.flights → a ∈ db.airlines → a.id = f.airline →
        a.airline = al →
        (FlightData.get_delayed_flights_by_airline (sqlStore db)
            (Value.str al)).1 = Except.ok (rowsByAirline db (Value.str al)) ∧
        recByAirline a f ∈ rowsByAirline db (Value.str al)) := by
  constructor
  · intro db ap f a hf ha hfa hop
    refine ⟨rfl, ?_⟩
    rw [rowsByAirport, List.mem_flatMap]
    refine ⟨f, hf, ?_⟩
    rw [List.mem_filterMap]
    exact ⟨a, ha, by rw [if_pos ⟨hfa, by rw [hop]⟩]⟩
  · intro db al f a hf ha haf hal
    refine ⟨rfl, ?_⟩
    rw [rowsByAirline, List.mem_flatMap]
    refine ⟨f, hf, ?_⟩
    rw [List.mem_filterMap]
    exact ⟨a, ha, by rw [if_pos ⟨haf, by rw [hal]⟩]⟩

/-- C9 witness: against the database whose only flight has a NULL
departure delay, both lookups return that flight. -/
theorem c9_witness :
    ((FlightData.get_delayed_flights_by_airport (sqlStore dbTwo)
        (Value.str "SEA")).1
          = Except.ok (rowsByAirport dbTwo (Value.str "SEA")) ∧
      recByAirport flightNullDelay airlineDelta
        ∈ rowsByAirport dbTwo (Value.str "SEA")) ∧
    ((FlightData.get_delayed_flights_by_airline (sqlStore dbTwo)
        (Value.str "Delta")).1
          = Except.ok (rowsByAirline dbTwo (Value.str "Delta")) ∧
      recByAirline airlineDelta flightNullDelay
        ∈ rowsByAirline dbTwo (Value.str "Delta")) :=
  ⟨c9_delay_not_filtered.1 dbTwo "SEA" flightNullDelay airlineDelta
      (by decide) (by decide) rfl rfl,
   c9_delay_not_filtered.2 dbTwo "Delta" flightNullDelay airlineDelta
      (by decide) (by decide) rfl rfl⟩

/-- C3 counterexample: in a database where flight 119 is operated by
airline 5 named Delta, the by-date lookup succeeds yet the returned
record holds the bare identifier 5 under AIRLINE and no column of it
holds the resolved name Delta, so not every template projects an
airline-name column. -/
theorem c3_counterexample_by_date_no_airline_name :
    (FlightData.get_flights_by_date (sqlStore dbOne)
        (Value.int 14) (Value.int 1) (Value.int 2015)).1
      = Except.ok [recByDate flightSEA] ∧
    recordGet (recByDate flightSEA) "AIRLINE" = some (Value.int 5) ∧
    recordHasStrValue (recByDate flightSEA) "Delta" = false :=
  ⟨rfl, rfl, rfl⟩

/-- C3 amended: every template projects a row identifier, origin
airport, destination airport and delay value; the by-id, by-airport and
by-airline templates also project a resolved airline name, while the
by-date template joins no airlines relation, so its AIRLINE column holds
the numeric airline identifier of the flights row rather than a resolved
name. -/
theorem c3_amended_projected_columns :
    (∀ (db : DB) (v : Value) (r : Record), r ∈ rowsById db v →
        hasCoreColumns r "FLIGHT_ID" ∧ hasResolvedAirlineName db r) ∧
    (∀ (db : DB) (v : Value) (r : Record), r ∈ rowsByAirport db v →
        hasCoreColumns r "FLIGHT_ID" ∧ hasResolvedAirlineName db r) ∧
    (∀ (db : DB) (v : Value) (r : Record), r ∈ rowsByAirline db v →
        hasCoreColumns r "AIRLINE_ID" ∧ hasResolvedAirlineName db r) ∧
    (∀ (db : DB) (dv mv yv : Value) (r : Record), r ∈ rowsByDate db dv mv yv →
        hasCoreColumns r "FLIGHT_ID" ∧ airlineColumnIsFlightFk db r) := by
  refine ⟨?_, ?_, ?_, ?_⟩
  · intro db v r hr
    rw [rowsById, List.mem_flatMap] at hr
    obtain ⟨f, hf, hr⟩ := hr
    rw [List.mem_filterMap] at hr
    obtain ⟨a, ha, hif⟩ := hr
    by_cases hc : f.airline = a.id ∧ Value.int f.id = v
    · rw [if_pos hc] at hif
      cases hif
      exact ⟨⟨rfl, rfl, rfl, rfl⟩, a, ha, rfl⟩
    · rw [if_neg hc] at hif
      cases hif
  · intro db v r hr
    rw [rowsByAirport, List.mem_flatMap] at hr
    obtain ⟨f, hf, hr⟩ := hr
    rw [List.mem_filterMap] at hr
    obtain ⟨a, ha, hif⟩ := hr
    by_cases hc : f.airline = a.id ∧ Value.str f.origin_airport = v
    · rw [if_pos hc] at hif
      cases hif
      exact ⟨⟨rfl, rfl, rfl, rfl⟩, a, ha, rfl⟩
    · rw [if_neg hc] at hif
      cases hif
  · intro db v r hr
    rw [rowsByAirline, List.mem_flatMap] at hr
    obtain ⟨f, hf, hr⟩ := hr
    rw [List.mem_filterMap] at hr
    obtain ⟨a, ha, hif⟩ := hr
    by_cases hc : a.id = f.airline ∧ Value.str a.airline = v
    · rw [if_pos hc] at hif
      cases hif
      exact ⟨⟨rfl, rfl, rfl, rfl⟩, a, ha, rfl⟩
    · rw [if_neg hc] at hif
      cases hif
  · intro db dv mv yv r hr
    rw [rowsByDate, List.mem_filterMap] at hr
    obtain ⟨f, hf, hif⟩ := hr
    by_cases hc : Value.int f.day = dv ∧ Value.int f.month = mv ∧
        Value.int f.year = yv
    · rw [if_pos hc] at hif
      cases hif
      exact ⟨⟨rfl, rfl, rfl, rfl⟩, f, hf, rfl⟩
    · rw [if_neg hc] at hif
      cases hif

/-- C3 amended witness: the fixture by-id record carries the display
columns and the resolved name Delta, while the fixture by-date record
carries the display columns and only the numeric airline identifier. -/
theorem c3_amended_witness :
    (hasCoreColumns (recById flightSEA airlineDelta) "FLIGHT_ID" ∧
      hasResolvedAirlineName dbOne (recById flightSEA airlineDelta)) ∧
    (hasCoreColumns (recByDate flightSEA) "FLIGHT_ID" ∧
      airlineColumnIsFlightFk dbOne (recByDate flightSEA)) :=
  ⟨c3_amended_projected_columns.1 dbOne (Value.int 119)
      (recById flightSEA airlineDelta) (by decide),
   c3_amended_projected_columns.2.2.2 dbOne (Value.int 14) (Value.int 1)
      (Value.int 2015) (recByDate flightSEA) (by decide)⟩

/-- C4: for every record carrying the required fields, print_results
normalizes a NULL delay to 0 and prints the record as
id. origin -> destination by airline, appending the
suffix comma Delay n Minutes exactly when the delay value is greater
than 0 (the delay-zero case omits the suffix). -/
theorem c4_display_format :
    ∀ (r : Record) (iv ov dv av : Value) (dOpt : Option Int),
      recordGet r "ID" = some iv →
      recordGet r "ORIGIN_AIRPORT" = some ov →
      recordGet r "DESTINATION_AIRPORT" = some dv →
      recordGet r "AIRLINE" = some av →
      recordGet r "DELAY" = some (valOfDelay dOpt) →
      print_results [r] =
        (["Got 1 results.",
          pyStr iv ++ ". " ++ pyStr ov ++ " -> " ++ pyStr dv ++ " by " ++ pyStr av
            ++ (if 0 < dOpt.getD 0
                then ", Delay: " ++ toString (dOpt.getD 0) ++ " Minutes"
                else "")], none) := by
  intro r iv ov dv av dOpt h1 h2 h3 h4 h5
  have ht : printResultsTryBlock r = Except.ok (dOpt.getD 0, ov, dv, av) := by
    cases dOpt with
    | none =>
      simp [printResultsTryBlock, dictAccess, h2, h3, h4, h5, valOfDelay,
        pyTruthy, Option.getD, Bind.bind, Except.bind, pure, Except.pure]
    | some n =>
      by_cases hn : n = 0
      · subst hn
        simp [printResultsTryBlock, dictAccess, h2, h3, h4, h5, valOfDelay,
          pyTruthy, pyInt, Option.getD, Bind.bind, Except.bind, pure, Except.pure]
      · simp [printResultsTryBlock, dictAccess, h2, h3, h4, h5, valOfDelay,
          pyTruthy, pyInt, hn, Option.getD, Bind.bind, Except.bind, pure,
          Except.pure]
  rw [print_results]
  simp only [printResultsLoop, ht, dictAccess, h1, List.length_singleton]
  by_cases hp : 0 < dOpt.getD 0
  · rw [if_pos ⟨by omega, hp⟩, if_pos hp]
    simp [toString, String.append_assoc, String.empty_append]
    rfl
  · rw [if_neg (fun hand => hp hand.2), if_neg hp]
    simp [toString, String.append_assoc, String.empty_append, String.append_empty]
    rfl

/-- C4 witness: a record with delay 45 prints the delay suffix, and a
record with NULL delay prints without it. -/
theorem c4_witness :
    print_results [[("ID", Value.int 119), ("ORIGIN_AIRPORT", Value.str "SEA"),
        ("DESTINATION_AIRPORT", Value.str "JFK"), ("AIRLINE", Value.str "Delta"),
        ("DELAY", Value.int 45)]] =
      (["Got 1 results.", "119. SEA -> JFK by Delta, Delay: 45 Minutes"], none) ∧
    print_results [[("ID", Value.int 120), ("ORIGIN_AIRPORT", Value.str "SEA"),
        ("DESTINATION_AIRPORT", Value.str "LAX"), ("AIRLINE", Value.str "Delta"),
        ("DELAY", Value.null)]] =
      (["Got 1 results.", "120. SEA -> LAX by Delta"], none) := by
  constructor
  · rw [c4_display_format
      [("ID", Value.int 119), ("ORIGIN_AIRPORT", Value.str "SEA"),
       ("DESTINATION_AIRPORT", Value.str "JFK"), ("AIRLINE", Value.str "Delta"),
       ("DELAY", Value.int 45)]
      (Value.int 119) (Value.str "SEA") (Value.str "JFK")
      (Value.str "Delta") (some 45) rfl rfl rfl rfl rfl]
    rfl
  · rw [c4_display_format
      [("ID", Value.int 120), ("ORIGIN_AIRPORT", Value.str "SEA"),
       ("DESTINATION_AIRPORT", Value.str "LAX"), ("AIRLINE", Value.str "Delta"),
       ("DELAY", Value.null)]
      (Value.int 120) (Value.str "SEA") (Value.str "LAX")
      (Value.str "Delta") none rfl rfl rfl rfl rfl]
    rfl

end FlightsSQL
